import Mathlib

/-!
Verification development for the sofr-scraper repository (three Python
pipeline scripts: `CMESOFR.py`, `CNBC.py`, `CNBC_US10YTIP_History.py`).

Each script is a fetch → normalize → store pipeline.  This file gives a
shallow embedding of the data model and the operations of those scripts:

* Python's binary64 `float` arithmetic is modelled exactly over `ℚ`:
  `fp64` is IEEE-754 round-to-nearest-even restricted to the normal range
  (all numbers occurring in this development are far from overflow and
  subnormal thresholds), and `shortestDec` models the value denoted by
  `repr`/`str` of a float (the shortest decimal string that parses back to
  the same float, which is what `decimal.Decimal(str(x))` receives).
* `datetime.fromtimestamp` / `datetime.timestamp` (CPython) are modelled
  by their documented conversions: float seconds → nanoseconds with
  round-half-even, nanoseconds → microseconds with round-half-even, and
  `timedelta.total_seconds` as one exact-integer division rounded to
  binary64.
* Strings are Lean `String`s; the few Python string operations used by the
  scripts (`startswith`, `in`, `lower`, `replace('%','')`) are defined on
  `String.data`.
* The DynamoDB table is an opaque key-value store: a function from the
  composite key `(metricId, timestamp)` to an optional item, and
  `batch_writer().put_item` is unconditional overwrite.
* External library behaviour that the claims do not depend on
  (`pandas.to_datetime` date parsing, `strftime` formatting, the local
  timezone used by the naive `fromtimestamp` in the history script) is
  passed in as an explicit function parameter.
-/

namespace CnbcSofr

/-! ## Python binary64 model -/

/-- Round a rational to the nearest integer, ties to even
(IEEE-754 default rounding, used by CPython float construction and by
`_PyTime` conversions). -/
def rhe (q : ℚ) : ℤ :=
  if q - ⌊q⌋ < 1/2 then ⌊q⌋
  else if 1/2 < q - ⌊q⌋ then ⌊q⌋ + 1
  else if ⌊q⌋ % 2 = 0 then ⌊q⌋ else ⌊q⌋ + 1

/-- Binary64 rounding of a positive rational: 53 significant bits,
round-to-nearest-even.  `Int.log 2 q` is the exponent of the binade
containing `q`. -/
def fp64aux (q : ℚ) : ℚ :=
  ((rhe (q * 2 ^ ((52:ℤ) - Int.log 2 q)) : ℚ)) * 2 ^ (Int.log 2 q - 52)

/-- The value of the Python `float` (IEEE-754 binary64,
round-to-nearest-even) nearest to the exact rational `q`.  Overflow and
subnormals are outside the range of every quantity in this development and
are not modelled. -/
def fp64 (q : ℚ) : ℚ :=
  if q = 0 then 0
  else if q < 0 then -(fp64aux (-q))
  else fp64aux q

/-- Round a positive rational to `p` significant decimal digits,
ties to even. -/
def roundDec (x : ℚ) (p : ℕ) : ℚ :=
  (rhe (x * 10 ^ ((p:ℤ) - 1 - Int.log 10 x)) : ℚ) * 10 ^ (Int.log 10 x - (p:ℤ) + 1)

/-- Try `p, p+1, ...` significant digits (bounded by `fuel`) until the
decimal rounding of `x` parses back (through `fp64`) to `x`. -/
def sdTry (x : ℚ) : ℕ → ℕ → ℚ
  | 0, _ => x
  | fuel+1, p => if fp64 (roundDec x p) = x then roundDec x p else sdTry x fuel (p+1)

/-- The rational value denoted by `repr(x)`/`str(x)` of a Python float
with value `x`: the shortest decimal numeral (at most 17 significant
digits) that rounds back to the same float.  This is exactly the value
`decimal.Decimal(str(x))` yields. -/
def shortestDec (x : ℚ) : ℚ :=
  if x = 0 then 0
  else if x < 0 then -(sdTry (-x) 17 1)
  else sdTry x 17 1

/-- Truncation toward zero, the behaviour of Python `int()` on a float. -/
def pyTrunc (q : ℚ) : ℤ :=
  if q < 0 then -⌊-q⌋ else ⌊q⌋

/-! ## Python string helpers used by the scripts -/

/-- Python `pre in s` restricted to `s.startswith(pre)`:
`String.data` prefix test. -/
def pyStartsWith (s pre : String) : Bool :=
  pre.data.isPrefixOf s.data

/-- Membership of `pat` as a contiguous substring (Python `pat in s`). -/
def infixAux (pat : List Char) : List Char → Bool
  | [] => pat.isEmpty
  | c :: rest => pat.isPrefixOf (c :: rest) || infixAux pat rest

/-- Python `pat in s` for strings. -/
def strContains (s pat : String) : Bool :=
  infixAux pat.data s.data

/-- Python `s.lower()` (ASCII case folding suffices for every string the
scripts compare). -/
def pyLower (s : String) : String :=
  ⟨s.data.map Char.toLower⟩

/-- Python `s.replace(c, '')`. -/
def removeChar (s : String) (c : Char) : String :=
  ⟨s.data.filter (fun a => a != c)⟩

/-! ## Python numeric-string parsing (`float(s)` and `decimal.Decimal(s)`)

The grammar modelled is plain signed decimal numerals
(`[+-] digits [. digits]`, at least one digit), plus the special words
`nan`/`inf`/`infinity`.  Scientific notation, underscores, and surrounding
whitespace — accepted by Python but never produced by the feeds these
scripts parse — are outside the modelled grammar. -/

/-- Accumulate a decimal digit string into a natural number; `none` when a
non-digit occurs. -/
def digitsAux : List Char → ℕ → Option ℕ
  | [], acc => some acc
  | c :: cs, acc =>
    if c.isDigit then digitsAux cs (10 * acc + (c.toNat - 48)) else none

def allDigits (cs : List Char) : Option ℕ :=
  digitsAux cs 0

/-- Parse an unsigned decimal numeral into
(integer part, fraction part, fraction length). -/
def parseUnsigned (cs : List Char) : Option (ℕ × ℕ × ℕ) :=
  let ip := cs.takeWhile (fun c => c != '.')
  match cs.drop ip.length with
  | [] => if ip.isEmpty then none else (allDigits ip).map (fun n => (n, 0, 0))
  | _ :: fr =>
    if ip.isEmpty && fr.isEmpty then none
    else
      match allDigits ip, allDigits fr with
      | some i, some f => some (i, f, fr.length)
      | _, _ => none

/-- Parse a signed decimal numeral into
(negative?, integer part, fraction part, fraction length). -/
def parseDecParts : List Char → Option (Bool × ℕ × ℕ × ℕ)
  | '-' :: rest => (parseUnsigned rest).map (fun t => (true, t))
  | '+' :: rest => (parseUnsigned rest).map (fun t => (false, t))
  | rest => (parseUnsigned rest).map (fun t => (false, t))

/-- The exact rational value denoted by a parsed decimal numeral. -/
def ratOfParts : Bool × ℕ × ℕ × ℕ → ℚ
  | (sg, i, f, l) => (if sg then -1 else 1) * ((i:ℚ) * 10 ^ l + f) / 10 ^ l

/-- Exact decimal parsing: the value `decimal.Decimal(s)` denotes for a
plain decimal numeral `s`. -/
def parseDec (s : String) : Option ℚ :=
  (parseDecParts s.data).map ratOfParts

/-- The value of a Python float: a finite binary64 value (held exactly as
a rational), or one of the non-finite specials. -/
inductive FVal where
  | fin (q : ℚ)
  | nan
  | inf
  | ninf
deriving DecidableEq

/-- Python `float(s)`: decimal numerals round to the nearest binary64;
the special words produce non-finite values; anything else raises
`ValueError` (modelled as `none`). -/
def parseFloat (s : String) : Option FVal :=
  match parseDecParts s.data with
  | some parts => some (FVal.fin (fp64 (ratOfParts parts)))
  | none =>
    if pyLower s ∈ (["nan", "+nan", "-nan"] : List String) then some FVal.nan
    else if pyLower s ∈ (["inf", "+inf", "infinity", "+infinity"] : List String) then
      some FVal.inf
    else if pyLower s ∈ (["-inf", "-infinity"] : List String) then some FVal.ninf
    else none

/-- The value of a Python `decimal.Decimal`: an exact decimal number or a
non-finite special. -/
inductive DecV where
  | num (q : ℚ)
  | dNaN
  | dInf
  | dNegInf
deriving DecidableEq

/-- Python `decimal.Decimal(s)` on the strings the scripts produce:
plain decimal numerals are exact; the float-repr special words parse to
special decimals; anything else raises `InvalidOperation` (`none`). -/
def pyDecimal (s : String) : Option DecV :=
  match parseDecParts s.data with
  | some parts => some (DecV.num (ratOfParts parts))
  | none =>
    if pyLower s ∈ (["nan", "+nan", "-nan"] : List String) then some DecV.dNaN
    else if pyLower s ∈ (["inf", "+inf", "infinity", "+infinity"] : List String) then
      some DecV.dInf
    else if pyLower s ∈ (["-inf", "-infinity"] : List String) then some DecV.dNegInf
    else none

/-- `decimal.Decimal(str(v))` for a Python float value `v`, as performed
by the store writers: finite floats go through the shortest repr, the
specials print as words that `Decimal` re-reads as special decimals. -/
def decOfFloat : FVal → DecV
  | FVal.fin q => DecV.num (shortestDec q)
  | FVal.nan => DecV.dNaN
  | FVal.inf => DecV.dInf
  | FVal.ninf => DecV.dNegInf

/-! ## CPython datetime conversions (`CNBC.py`, UTC path)

`CNBC.py` line 140 builds `datetime.fromtimestamp(timestamp_ms / 1000,
tz=timezone.utc)` and its store writer (line 56) recovers
`int(datetime_obj.timestamp() * 1000)`.  CPython converts a float of
seconds to a `_PyTime_t` of nanoseconds with `_PyTime_ROUND_HALF_EVEN`
(the multiplication by `1e9` itself is a binary64 operation), then to the
microsecond field with another round-half-even; `datetime.timestamp` is
`(self - epoch).total_seconds()`, i.e. the exact integer count of
microseconds divided by `10**6` in one binary64 division. -/

/-- Nanoseconds CPython derives from a float timestamp `t` (seconds). -/
def dtNs (t : ℚ) : ℤ :=
  rhe (fp64 (t * 1000000000))

/-- Microsecond-of-epoch of `datetime.fromtimestamp(m / 1000, tz=utc)`
for an integer millisecond count `m` (`m / 1000` is Python true division,
a correctly rounded binary64 operation). -/
def dtMicros (m : ℤ) : ℤ :=
  rhe ((dtNs (fp64 ((m:ℚ) / 1000)) : ℚ) / 1000)

/-- The float returned by `datetime.timestamp()` for an aware UTC datetime
holding `us` microseconds-of-epoch (`timedelta.total_seconds`). -/
def tsFloat (us : ℤ) : ℚ :=
  fp64 ((us:ℚ) / 1000000)

/-- `int(datetime_obj.timestamp() * 1000)` — the millisecond timestamp the
store writers persist for a datetime holding `us` microseconds-of-epoch. -/
def storedTsOfMicros (us : ℤ) : ℤ :=
  pyTrunc (fp64 (tsFloat us * 1000))

/-! ## CMESOFR.py: strip-rate normalizer

`fetch_sofr_strip_rates_with_selenium` walks `resultsStrip`.  JSON
dictionaries are embedded as structures of `Option` fields (`none` =
key absent); values that the script immediately passes to `str()` are
held as the resulting strings. -/

/-- One entry of `day_data['rates']['sofrRatesFixing']`. -/
structure RateInfo where
  term : Option String
  price : Option String
  timestamp : Option String
deriving DecidableEq

/-- One entry of `resultsStrip` (`day_data`).  The `rates` field models
`day_data['rates']['sofrRatesFixing']` (`none` when either nesting level
is absent); `overnight` and the passthrough fields hold the `str()` image
of the raw JSON value. -/
structure DayData where
  date : Option String
  overnight : Option String
  avg30 : Option String
  avg90 : Option String
  avg180 : Option String
  sofrIndex : Option String
  rates : Option (List RateInfo)
deriving DecidableEq

/-- The candidates grouped under one term, in original order
(`rates_by_term[term]`; the dict-of-lists construction appends in
iteration order, which is a filter of the original list). -/
def termCands (t : String) (rs : List RateInfo) : List RateInfo :=
  rs.filter (fun r => decide (r.term = some t))

/-- CMESOFR.py lines 131–144: choose one candidate for a term.
A single candidate is taken as-is; otherwise restrict to candidates whose
timestamp starts with the day's date label, prefer one containing
`T10:00`, and fall back to the first candidate in original order when no
candidate is on-date.  (The source would raise `TypeError` — aborting the
whole fetch — if the day's `date` were absent here; the embedding is used
with the date label present, as every claim presupposes.) -/
def selectRate (dateStr : String) : List RateInfo → Option RateInfo
  | [] => none
  | [r] => some r
  | r1 :: r2 :: rest =>
    let l := r1 :: r2 :: rest
    let onDate := l.filter (fun r => pyStartsWith (r.timestamp.getD "") dateStr)
    let t10 := onDate.filter (fun r => strContains (r.timestamp.getD "") "T10:00")
    if onDate.isEmpty then l.head?
    else if t10.isEmpty then onDate.head?
    else t10.head?

/-- The sentinel spellings treated as "not available" for `overnight`
(compared lower-cased). -/
def sentinelList : List String :=
  ["-", "n/a", "none", ""]

/-- The normalized value of one term for one day:
selected candidate's `price` parsed as float, absent on parse failure. -/
def termVal (dateStr : String) (t : String) (rs : List RateInfo) : Option FVal :=
  (selectRate dateStr (termCands t rs)).bind (fun r => r.price.bind parseFloat)

/-- One row of the intermediate DataFrame built by the fetch
(`processed_data.append(...)`, lines 152–163): float-valued columns for
overnight and the four terms, raw passthrough for the averages and the
index. -/
structure SRow where
  date : Option String
  overnight : Option FVal
  m1 : Option FVal
  m3 : Option FVal
  m6 : Option FVal
  y1 : Option FVal
  avg30 : Option String
  avg90 : Option String
  avg180 : Option String
  sofrIndex : Option String
deriving DecidableEq

/-- Normalization of one `day_data` record (loop body, lines 102–163). -/
def dayToRow (d : DayData) : SRow :=
  { date := d.date
  , overnight := if pyLower (d.overnight.getD "N/A") ∈ sentinelList then none
      else parseFloat (d.overnight.getD "N/A")
  , m1 := termVal (d.date.getD "") "1M" (d.rates.getD [])
  , m3 := termVal (d.date.getD "") "3M" (d.rates.getD [])
  , m6 := termVal (d.date.getD "") "6M" (d.rates.getD [])
  , y1 := termVal (d.date.getD "") "1Y" (d.rates.getD [])
  , avg30 := d.avg30
  , avg90 := d.avg90
  , avg180 := d.avg180
  , sofrIndex := d.sofrIndex }

/-- The `for i, day_data in enumerate(daily_strips)` loop with its
`if i >= 5: break` guard (lines 98–100). -/
def stripLoop : ℕ → List DayData → List SRow
  | _, [] => []
  | i, d :: ds => if 5 ≤ i then [] else dayToRow d :: stripLoop (i+1) ds

/-- The rows the CMESOFR fetch normalizes out of a `resultsStrip`
payload. -/
def sofrRows (strips : List DayData) : List SRow :=
  stripLoop 0 strips

/-- Test fixture: one day record for 2024-01-02 carrying a single
1M-term candidate whose `price` field is the string `s`. -/
def day1M (s : String) : DayData :=
  { date := some "2024-01-02"
  , overnight := none
  , avg30 := none
  , avg90 := none
  , avg180 := none
  , sofrIndex := none
  , rates := some [⟨some "1M", some s, some "2024-01-02T10:00:00Z"⟩] }

/-! ## CNBC.py / CNBC_US10YTIP_History.py: chart-data normalizer -/

/-- One element of `priceBars`. `trade` models `tradeTimeinMills`
(`none` = key absent); `close` holds the raw `close` value as the string
`str()` would produce (`none` = key absent, in which case the script
substitutes the literal `"0"`). -/
structure Bar where
  trade : Option ℤ
  close : Option String
deriving DecidableEq

/-- One normalized chart row (`DateTime`, `Value`): the datetime is kept
as its microsecond-of-epoch count. -/
structure CRow where
  dtMicros : ℤ
  value : FVal
deriving DecidableEq

/-- Parse a close string (CNBC.py lines 144–153): strip every `%` if one
is present, then `float(...)`. -/
def parseClose (s : String) : Option FVal :=
  if strContains s "%" then parseFloat (removeChar s '%') else parseFloat s

/-- CNBC.py per-bar normalization (lines 131–161): a bar is skipped when
`tradeTimeinMills` is absent or the close text does not parse; an absent
`close` defaults to the text `"0"`. -/
def normBar (b : Bar) : Option CRow :=
  match b.trade with
  | none => none
  | some m => (parseClose (b.close.getD "0")).map (fun v => ⟨dtMicros m, v⟩)

/-- `df.sort_values(by='DateTime')` — an ascending comparison sort on the
timestamp key (the pandas default sort gives no tie-order guarantee;
this embedding uses a merge sort, and no theorem below relies on its tie
order). -/
def sortByDt (rows : List CRow) : List CRow :=
  rows.mergeSort (fun a b => a.dtMicros ≤ b.dtMicros)

/-- The row sequence CNBC.py hands to its store writer: normalized bars,
sorted ascending by timestamp (lines 163–166). -/
def cnbcRows (bars : List Bar) : List CRow :=
  sortByDt (bars.filterMap normBar)

/-- History-script per-bar normalization (lines 114–144): identical to
CNBC.py except that `datetime.fromtimestamp` is called without `tz`, so
the wall-clock datetime is shifted by the system timezone; `off` gives
that shift in microseconds as a function of the bar's milliseconds. -/
def historyNormBar (off : ℤ → ℤ) (b : Bar) : Option CRow :=
  match b.trade with
  | none => none
  | some m => (parseClose (b.close.getD "0")).map (fun v => ⟨dtMicros m + off m, v⟩)

/-- The row sequence CNBC_US10YTIP_History.py hands to its store writer:
normalized bars in original payload order — the history script performs
no sort (lines 146–147). -/
def historyRows (off : ℤ → ℤ) (bars : List Bar) : List CRow :=
  bars.filterMap (historyNormBar off)

/-! ## The store

DynamoDB with composite key (`metricId` string HASH, `timestamp` number
RANGE) is an opaque key-value table; `batch_writer().put_item` is an
unconditional overwrite of the item at its key. -/

/-- Composite key: (`metricId`, `timestamp` in epoch milliseconds). -/
def Key : Type := String × ℤ

instance : DecidableEq Key := by
  unfold Key
  infer_instance

/-- One stored item beyond its key: `value`, `sourceDate`, optional
`unit`. -/
structure Item where
  value : DecV
  sourceDate : String
  unit : Option String
deriving DecidableEq

/-- The table state: what item, if any, sits at each composite key. -/
def Store : Type := Key → Option Item

/-- `put_item`: unconditional overwrite at the item's key. -/
def putItem (k : Key) (it : Item) (st : Store) : Store :=
  fun k2 => if k2 = k then some it else st k2

/-- Submit a sequence of puts in order (the batch writer flushes every
buffered item; per-key the last write wins). -/
def applyPuts (l : List (Key × Item)) (st : Store) : Store :=
  l.foldl (fun s p => putItem p.1 p.2 s) st

/-! ### CMESOFR.py store writer (`store_sofr_data_in_dynamodb`) -/

/-- Item built from a float-valued column (lines 243–264): absent and NaN
values are skipped by the `pd.isna` guard; finite floats are stored as
`Decimal(str(value))`; infinities pass the guard (the writer has no
finiteness check). -/
def floatItem (mid : String) (unitOpt : Option String) (ts : ℤ) (sd : String) :
    Option FVal → Option (Key × Item)
  | none => none
  | some FVal.nan => none
  | some (FVal.fin q) => some ((mid, ts), ⟨DecV.num (shortestDec q), sd, unitOpt⟩)
  | some FVal.inf => some ((mid, ts), ⟨DecV.dInf, sd, unitOpt⟩)
  | some FVal.ninf => some ((mid, ts), ⟨DecV.dNegInf, sd, unitOpt⟩)

/-- Item built from a passthrough column (kept as its raw string):
`Decimal(str(value))` may fail, which skips only that item
(`continue`). -/
def rawItem (mid : String) (unitOpt : Option String) (ts : ℤ) (sd : String) :
    Option String → Option (Key × Item)
  | none => none
  | some s => (pyDecimal s).map (fun dv => ((mid, ts), ⟨dv, sd, unitOpt⟩))

/-- The surviving puts of one row once its timestamp `ts` and date label
`d` are fixed, in `metric_mapping` order (lines 219–264). -/
def rowItemsTs (fmt : String → String) (r : SRow) (d : String) (ts : ℤ) :
    List (Key × Item) :=
  ([floatItem "SOFR_Overnight" (some "%") ts (fmt d) r.overnight,
    floatItem "SOFR_1M_Term" (some "%") ts (fmt d) r.m1,
    floatItem "SOFR_3M_Term" (some "%") ts (fmt d) r.m3,
    floatItem "SOFR_6M_Term" (some "%") ts (fmt d) r.m6,
    floatItem "SOFR_1Y_Term" (some "%") ts (fmt d) r.y1,
    rawItem "SOFR_30D_Avg" (some "%") ts (fmt d) r.avg30,
    rawItem "SOFR_90D_Avg" (some "%") ts (fmt d) r.avg90,
    rawItem "SOFR_180D_Avg" (some "%") ts (fmt d) r.avg180,
    rawItem "SOFR_Index" none ts (fmt d) r.sofrIndex]).reduceOption

/-- The puts one DataFrame row contributes, in `metric_mapping` order
(lines 219–264).  `pdDate` stands for
`convert_date_to_utc_timestamp_ms ∘ pd.to_datetime` (midnight-UTC
milliseconds of the date label, `none` for an unparseable/absent date,
which skips the whole row); `fmt` stands for `strftime('%Y-%m-%d')`. -/
def rowItems (pdDate : String → Option ℤ) (fmt : String → String) (r : SRow) :
    List (Key × Item) :=
  match r.date with
  | none => []
  | some d =>
    match pdDate d with
    | none => []
    | some ts => rowItemsTs fmt r d ts

/-- All puts of one CMESOFR store run, row by row. -/
def sofrItems (pdDate : String → Option ℤ) (fmt : String → String) (rows : List SRow) :
    List (Key × Item) :=
  rows.flatMap (rowItems pdDate fmt)

/-- `store_sofr_data_in_dynamodb`: batch-write every surviving item. -/
def writeSofr (pdDate : String → Option ℤ) (fmt : String → String) (rows : List SRow)
    (st : Store) : Store :=
  applyPuts (sofrItems pdDate fmt rows) st

/-! ### CNBC.py store writer (`store_data_in_dynamodb`)

Lines 50–79.  The row guard at line 60 is
`if pd.isna(row['Value']) or not pd.Series(row['Value']).is_finite().all():`.
`pd.isna` short-circuits the `or` for a NaN value (the row is skipped with
`continue`); for **every other value** the right operand evaluates
`pd.Series(value).is_finite()`, and pandas has no `Series.is_finite`
attribute, so an `AttributeError` is raised — which the surrounding
`except (ValueError, TypeError, decimal.InvalidOperation)` does not
catch.  The exception escapes `store_data_in_dynamodb` (and `__main__`),
so the writer dies before its first `put_item`: the `Decimal`/`put_item`
code below the guard is unreachable, nothing is ever written (the batch
buffer is empty at the crash), and the process exits non-zero. -/

/-- The CNBC.py writer loop: NaN rows are skipped (`pd.isna` →
`continue`); the first non-NaN row raises the uncaught `AttributeError`
from the nonexistent `pd.Series.is_finite` (`none` = the writer dies with
nothing written); a loop that runs out of rows returns with the store
untouched. -/
def chartWriteLoop : List CRow → Store → Option Store
  | [], st => some st
  | r :: rest, st =>
    match r.value with
    | FVal.nan => chartWriteLoop rest st
    | _ => none

/-! ### CNBC_US10YTIP_History.py store writer
(`store_yield_data_in_dynamodb`) -/

/-- `store_yield_data_in_dynamodb` (lines 27–62): no NaN/finiteness guard
at all — every row's value goes through `Decimal(str(...))`, which
succeeds for every float value (specials included), and is put under
`(metricId, int(datetime_obj.timestamp() * 1000))`.  The datetime is
naive (built by the local-time `fromtimestamp`), so `tsf` stands for the
environment-dependent naive-`timestamp()` conversion from the row's
wall-clock microseconds to stored milliseconds (on a UTC system it is
`storedTsOfMicros`); `fmt` stands for `strftime('%Y-%m-%d %H:%M:%S')`. -/
def writeHist (tsf : ℤ → ℤ) (mid : String) (unit : String) (fmt : ℤ → String)
    (rows : List CRow) (st : Store) : Store :=
  applyPuts
    (rows.map (fun r =>
      ((mid, tsf r.dtMicros), ⟨decOfFloat r.value, fmt r.dtMicros, some unit⟩))) st

/-! ## CNBC fetch control flow (retry loop) -/

/-- What one HTTP attempt produces, as the scripts distinguish them:
a decoded JSON response (with the `data.chartData.priceBars` path present
and truthy, carrying the bars, or not), or one of the caught failure
kinds. -/
inductive FetchOutcome where
  | payload (bars : Option (List Bar))
  | transportErr
  | httpErr
  | jsonErr
  | otherErr
deriving DecidableEq

def isFailure : FetchOutcome → Bool
  | FetchOutcome.payload _ => false
  | _ => true

/-- Rows produced from a decoded response: a missing/empty `priceBars`
path is a structural mismatch yielding an empty result (and the guard
treats an empty list as falsy, hence also mismatch). -/
def processPayload : Option (List Bar) → List CRow
  | none => []
  | some l => if l.isEmpty then [] else cnbcRows l

/-- Result of a CNBC.py fetch run: the normalized rows, how many attempts
were made, and how many `time.sleep(retry_delay)` waits ran. -/
structure FetchRun where
  rows : List CRow
  attemptsMade : ℕ
  sleepsTaken : ℕ
deriving DecidableEq

/-- The `for attempt in range(max_retries)` loop of CNBC.py
(lines 110–186): attempt `i` observes `outs i`; a decoded response
returns immediately (success or structural mismatch — mismatch is not
retried); a caught failure returns an empty frame on the last attempt and
otherwise sleeps and retries.  `fuel` is the remaining attempt budget. -/
def fetchLoop (outs : ℕ → FetchOutcome) : ℕ → ℕ → FetchRun
  | 0, i => ⟨[], i, i⟩
  | fuel+1, i =>
    match outs i with
    | FetchOutcome.payload p => ⟨processPayload p, i + 1, i⟩
    | _ => if fuel = 0 then ⟨[], i + 1, i⟩ else fetchLoop outs fuel (i + 1)

/-- `fetch_cnbc_data` of CNBC.py: up to 3 attempts. -/
def cnbcFetch (outs : ℕ → FetchOutcome) : FetchRun :=
  fetchLoop outs 3 0

/-- `fetch_cnbc_data` of CNBC_US10YTIP_History.py (lines 96–166): one
single attempt; every caught failure and the structural-mismatch branch
return `None`.  The pair also reports the number of attempts made
(always 1). -/
def historyFetch (off : ℤ → ℤ) (out : FetchOutcome) : Option (List CRow) × ℕ :=
  (match out with
   | FetchOutcome.payload (some l) => if l.isEmpty then none else some (historyRows off l)
   | FetchOutcome.payload none => none
   | _ => none, 1)

/-! ## Top-level control flow of the three scripts -/

/-- Observable outcome of one script run: the process exit status and
whether the upstream fetch was attempted at all. -/
structure RunTrace where
  exitCode : ℕ
  fetchAttempted : Bool
deriving DecidableEq

/-- CMESOFR.py module init plus `__main__` (lines 31–38, 271–293): a
store-init failure is caught and leaves `table = None`; the fetch always
runs; storage runs only when rows were produced and the table exists; the
process always exits 0 (`storeOk` abstracts whether
`boto3.resource(...)`/`Table(...)` succeeded, `fetched` the rows the
selenium fetch normalized — every fetch failure yields `[]` inside the
fetch itself). -/
def cmesofrMain (storeOk : Bool) (fetched : List SRow) (pdDate : String → Option ℤ)
    (fmt : String → String) (st : Store) : RunTrace × Store :=
  let st2 := if storeOk && !fetched.isEmpty then writeSofr pdDate fmt fetched st else st
  (⟨0, true⟩, st2)

/-- CNBC.py module init plus `__main__` (lines 27–34, 189–215): a
store-init failure is re-raised at import time, so the process dies with
a non-zero status before any fetch (the later `exit(1)` check at lines
197–199 is unreachable); otherwise the fetch runs (it never raises), and
a nonempty frame goes to `store_data_in_dynamodb` — which completes
(writing nothing) only when every row is NaN, and otherwise dies on the
uncaught `AttributeError` from the nonexistent `pd.Series.is_finite`,
making the process exit non-zero. -/
def cnbcMain (storeOk : Bool) (outs : ℕ → FetchOutcome) (st : Store) : RunTrace × Store :=
  if storeOk then
    if (cnbcFetch outs).rows.isEmpty then (⟨0, true⟩, st)
    else
      match chartWriteLoop (cnbcFetch outs).rows st with
      | some st2 => (⟨0, true⟩, st2)
      | none => (⟨1, true⟩, st)
  else (⟨1, false⟩, st)

/-- CNBC_US10YTIP_History.py module init plus `__main__` (lines 23–25,
168–195): store init is not wrapped in `try` at all, so a failure kills
the process before any fetch; otherwise one fetch attempt runs and a
nonempty frame is stored, exiting 0. -/
def historyMain (storeOk : Bool) (off tsf : ℤ → ℤ) (out : FetchOutcome) (mid unit : String)
    (fmt : ℤ → String) (st : Store) : RunTrace × Store :=
  if storeOk then
    match historyFetch off out with
    | (some rows, _) =>
      let st2 := if !rows.isEmpty then writeHist tsf mid unit fmt rows st else st
      (⟨0, true⟩, st2)
    | (none, _) => (⟨0, true⟩, st)
  else (⟨1, false⟩, st)

/-! ### Evaluation lemmas for the binary64 model -/

theorem rhe_eq_low (q : ℚ) (n : ℤ) (h1 : (n:ℚ) ≤ q) (h2 : q < n + 1/2) : rhe q = n := by
  have hf : ⌊q⌋ = n := by
    rw [Int.floor_eq_iff]
    exact ⟨h1, by linarith⟩
  unfold rhe
  rw [hf, if_pos (by linarith)]

theorem rhe_eq_high (q : ℚ) (n : ℤ) (h1 : (n:ℚ) - 1/2 < q) (h2 : q ≤ n) : rhe q = n := by
  rcases eq_or_lt_of_le h2 with h | h
  · have hf : ⌊q⌋ = n := by rw [h, Int.floor_intCast]
    unfold rhe
    rw [hf, if_pos (by rw [h]; norm_num)]
  · have hf : ⌊q⌋ = n - 1 := by
      rw [Int.floor_eq_iff]
      constructor
      · push_cast; linarith
      · push_cast; linarith
    unfold rhe
    rw [hf]
    rw [if_neg (by push_cast; linarith), if_pos (by push_cast; linarith)]
    omega

theorem rhe_eq_half_odd (n : ℤ) (hodd : n % 2 = 1) : rhe ((n:ℚ) + 1/2) = n + 1 := by
  have hf : ⌊(n:ℚ) + 1/2⌋ = n := by
    rw [Int.floor_eq_iff]
    constructor
    · linarith
    · linarith
  unfold rhe
  rw [hf]
  rw [if_neg (by linarith), if_neg (by linarith), if_neg (by omega)]

theorem int_log2_eq (q : ℚ) (e : ℤ) (hq : 0 < q) (h1 : (2:ℚ)^e ≤ q) (h2 : q < 2^(e+1)) :
    Int.log 2 q = e := by
  have hb : (1:ℕ) < 2 := by norm_num
  have hle : e ≤ Int.log 2 q := by
    rw [← Int.zpow_le_iff_le_log hb hq]
    exact_mod_cast h1
  have hlt : Int.log 2 q < e + 1 := by
    rw [← Int.lt_zpow_iff_log_lt hb hq]
    exact_mod_cast h2
  omega

theorem int_log10_eq (q : ℚ) (e : ℤ) (hq : 0 < q) (h1 : (10:ℚ)^e ≤ q) (h2 : q < 10^(e+1)) :
    Int.log 10 q = e := by
  have hb : (1:ℕ) < 10 := by norm_num
  have hle : e ≤ Int.log 10 q := by
    rw [← Int.zpow_le_iff_le_log hb hq]
    exact_mod_cast h1
  have hlt : Int.log 10 q < e + 1 := by
    rw [← Int.lt_zpow_iff_log_lt hb hq]
    exact_mod_cast h2
  omega

theorem fp64_eval (q : ℚ) (e n : ℤ) (hq : 0 < q) (h1 : (2:ℚ)^e ≤ q) (h2 : q < 2^(e+1))
    (hr : rhe (q * 2 ^ ((52:ℤ) - e)) = n) : fp64 q = (n:ℚ) * 2 ^ (e - 52) := by
  unfold fp64
  rw [if_neg (by linarith), if_neg (by linarith)]
  unfold fp64aux
  rw [int_log2_eq q e hq h1 h2, hr]

theorem roundDec_eval (x : ℚ) (p : ℕ) (d n : ℤ) (hx : 0 < x)
    (h1 : (10:ℚ)^d ≤ x) (h2 : x < 10^(d+1))
    (hr : rhe (x * 10 ^ ((p:ℤ) - 1 - d)) = n) :
    roundDec x p = (n:ℚ) * 10 ^ (d - (p:ℤ) + 1) := by
  unfold roundDec
  rw [int_log10_eq x d hx h1 h2, hr]

theorem fp64_zero : fp64 0 = 0 := by
  unfold fp64
  norm_num

theorem sdTry_step (x : ℚ) (fuel p : ℕ) :
    sdTry x (fuel+1) p = if fp64 (roundDec x p) = x then roundDec x p else sdTry x fuel (p+1) :=
  rfl

/-- When already the one-significant-digit decimal rounding of `x` parses
back to `x`, the shortest repr is that rounding. -/
theorem shortestDec_eval1 (x : ℚ) (hx : 0 < x) (h1 : fp64 (roundDec x 1) = x) :
    shortestDec x = roundDec x 1 := by
  unfold shortestDec
  rw [if_neg (by linarith), if_neg (by linarith)]
  have step : sdTry x 17 1 = if fp64 (roundDec x 1) = x then roundDec x 1 else sdTry x 16 2 :=
    sdTry_step x 16 1
  rw [step, if_pos h1]

/-- When one significant digit does not round-trip but two do, the
shortest repr is the two-digit rounding. -/
theorem shortestDec_eval2 (x : ℚ) (hx : 0 < x)
    (h1 : fp64 (roundDec x 1) ≠ x) (h2 : fp64 (roundDec x 2) = x) :
    shortestDec x = roundDec x 2 := by
  unfold shortestDec
  rw [if_neg (by linarith), if_neg (by linarith)]
  have stepa : sdTry x 17 1 = if fp64 (roundDec x 1) = x then roundDec x 1 else sdTry x 16 2 :=
    sdTry_step x 16 1
  have stepb : sdTry x 16 2 = if fp64 (roundDec x 2) = x then roundDec x 2 else sdTry x 15 3 :=
    sdTry_step x 15 2
  rw [stepa, if_neg h1, stepb, if_pos h2]

/-! ## Generic lemmas about the store and the loops -/

/-- Last-write-wins: a lookup after a batch of puts returns the payload of
the last put at that key, else what the prior state held. -/
theorem applyPuts_lookup (l : List (Key × Item)) (st : Store) (k : Key) :
    applyPuts l st k =
      match l.reverse.find? (fun p => decide (p.1 = k)) with
      | some p => some p.2
      | none => st k := by
  induction l using List.reverseRecOn with
  | nil => rfl
  | append_singleton l q ih =>
    have h1 : applyPuts (l ++ [q]) st k = putItem q.1 q.2 (applyPuts l st) k := by
      simp [applyPuts, List.foldl_append]
    rw [h1]
    by_cases hk : q.1 = k
    · have : putItem q.1 q.2 (applyPuts l st) k = some q.2 := by
        simp [putItem, hk.symm]
      rw [this]
      simp [List.reverse_append, List.find?_cons, hk]
    · have : putItem q.1 q.2 (applyPuts l st) k = applyPuts l st k := by
        simp [putItem]
        intro h
        exact absurd h.symm hk
      rw [this, ih]
      simp [List.reverse_append, List.find?_cons, hk]

/-- Replaying the same batch of puts changes nothing. -/
theorem applyPuts_idem (l : List (Key × Item)) (st : Store) :
    applyPuts l (applyPuts l st) = applyPuts l st := by
  funext k
  rcases hf : l.reverse.find? (fun p => decide (p.1 = k)) with _ | p
  · simp [applyPuts_lookup, hf]
  · simp [applyPuts_lookup, hf]

/-- The enumerate/break loop over strip days is `take` of the remaining
budget. -/
theorem stripLoop_eq_take (ds : List DayData) :
    ∀ i : ℕ, i ≤ 5 → stripLoop i ds = ((ds.take (5 - i)).map dayToRow) := by
  induction ds with
  | nil => intro i _; simp [stripLoop]
  | cons d tl ih =>
    intro i hi
    by_cases h5 : 5 ≤ i
    · have : i = 5 := le_antisymm hi h5
      subst this
      simp [stripLoop]
    · have hlt : i < 5 := lt_of_not_ge h5
      have : 5 - i = (5 - (i+1)) + 1 := by omega
      rw [stripLoop, if_neg h5, this]
      simp only [List.take_succ_cons, List.map_cons]
      rw [ih (i+1) (by omega)]

/-- The CMESOFR normalizer processes exactly the first five day
records. -/
theorem sofrRows_eq_take (strips : List DayData) :
    sofrRows strips = (strips.take 5).map dayToRow := by
  unfold sofrRows
  rw [stripLoop_eq_take strips 0 (by omega)]

/-- The CNBC.py row sequence is pairwise ascending in its timestamp. -/
theorem cnbcRows_sortedAsc (bars : List Bar) :
    (cnbcRows bars).Pairwise (fun a b => a.dtMicros ≤ b.dtMicros) := by
  have trans : ∀ a b c : CRow,
      (decide (a.dtMicros ≤ b.dtMicros)) → (decide (b.dtMicros ≤ c.dtMicros)) →
      (decide (a.dtMicros ≤ c.dtMicros)) := by
    intro a b c hab hbc
    simp only [decide_eq_true_eq] at hab hbc ⊢
    omega
  have total : ∀ a b : CRow,
      ((decide (a.dtMicros ≤ b.dtMicros)) || (decide (b.dtMicros ≤ a.dtMicros))) = true := by
    intro a b
    simp only [Bool.or_eq_true, decide_eq_true_eq]
    omega
  have h := List.sorted_mergeSort trans total (bars.filterMap normBar)
  refine List.Pairwise.imp ?_ h
  intro a b hab
  simpa using hab

/-- The tie-break of `selectRate` in one equation: first same-day
candidate containing `T10:00`, else first same-day candidate, else first
candidate overall. -/
theorem selectRate_spec (dateStr : String) (l : List RateInfo) :
    selectRate dateStr l =
      (((l.filter (fun r => pyStartsWith (r.timestamp.getD "") dateStr)).find?
          (fun r => strContains (r.timestamp.getD "") "T10:00")).orElse
        (fun _ => (l.filter (fun r => pyStartsWith (r.timestamp.getD "") dateStr)).head?)).orElse
        (fun _ => l.head?) := by
  match l with
  | [] => rfl
  | [r] =>
    show some r = _
    by_cases hd : pyStartsWith (r.timestamp.getD "") dateStr
    · by_cases ht : strContains (r.timestamp.getD "") "T10:00"
      · simp [List.filter, hd, ht, List.find?, Option.orElse]
      · simp [List.filter, hd, ht, List.find?, Option.orElse]
    · simp [List.filter, hd, Option.orElse]
  | r1 :: r2 :: rest =>
    show (let l2 := r1 :: r2 :: rest
      let onDate := l2.filter (fun r => pyStartsWith (r.timestamp.getD "") dateStr)
      let t10 := onDate.filter (fun r => strContains (r.timestamp.getD "") "T10:00")
      if onDate.isEmpty then l2.head?
      else if t10.isEmpty then onDate.head?
      else t10.head?) = _
    simp only []
    set l2 := r1 :: r2 :: rest with hl2
    set onDate := l2.filter (fun r => pyStartsWith (r.timestamp.getD "") dateStr) with hod
    by_cases h1 : onDate.isEmpty
    · have hfe : onDate = [] := List.isEmpty_iff.mp h1
      rw [if_pos h1, hfe]
      simp [Option.orElse]
    · rw [if_neg h1]
      by_cases h2 : (onDate.filter (fun r => strContains (r.timestamp.getD "") "T10:00")).isEmpty
      · have hfe : onDate.filter (fun r => strContains (r.timestamp.getD "") "T10:00") = [] :=
          List.isEmpty_iff.mp h2
        rw [if_pos h2]
        have hfind : onDate.find? (fun r => strContains (r.timestamp.getD "") "T10:00") = none := by
          rw [← List.filter_head?, hfe]
          rfl
        rw [hfind]
        have hne : onDate.head?.isSome := by
          rcases hcase : onDate with _ | ⟨a, t⟩
          · rw [hcase] at h1; simp at h1
          · rfl
        rcases ho : onDate.head? with _ | a
        · rw [ho] at hne; simp at hne
        · simp [Option.orElse]
      · rw [if_neg h2]
        have hfind : onDate.find? (fun r => strContains (r.timestamp.getD "") "T10:00") =
            (onDate.filter (fun r => strContains (r.timestamp.getD "") "T10:00")).head? := by
          rw [List.filter_head?]
        rcases hcase : (onDate.filter (fun r => strContains (r.timestamp.getD "") "T10:00")) with _ | ⟨a, t⟩
        · rw [hcase] at h2; simp at h2
        · rw [hcase] at hfind
          rw [hfind]
          simp [Option.orElse, hfind]

/-! ## Concrete binary64 evaluations

Each lemma evaluates `fp64`/`rhe`/`shortestDec` at one concrete rational
needed by the claims, by exhibiting the binade exponent and the rounding
inequalities. -/

theorem rhe_int (n : ℤ) : rhe ((n:ℚ)) = n :=
  rhe_eq_low (n:ℚ) n (le_refl _) (by norm_num)

theorem pyTrunc_intCast (n : ℤ) (h : 0 ≤ n) : pyTrunc ((n:ℚ)) = n := by
  unfold pyTrunc
  rw [if_neg (by exact_mod_cast not_lt.mpr h), Int.floor_intCast]

theorem fp64_one : fp64 1 = 1 := by
  have h := fp64_eval 1 0 4503599627370496 (by norm_num) (by norm_num) (by norm_num)
    (rhe_eq_low (1 * 2 ^ ((52:ℤ) - 0)) 4503599627370496 (by norm_num) (by norm_num))
  rw [h]
  norm_num

theorem fp64_two : fp64 2 = 2 := by
  have h := fp64_eval 2 1 4503599627370496 (by norm_num) (by norm_num) (by norm_num)
    (rhe_eq_low (2 * 2 ^ ((52:ℤ) - 1)) 4503599627370496 (by norm_num) (by norm_num))
  rw [h]
  norm_num

theorem fp64_five : fp64 5 = 5 := by
  have h := fp64_eval 5 2 5629499534213120 (by norm_num) (by norm_num) (by norm_num)
    (rhe_eq_low (5 * 2 ^ ((52:ℤ) - 2)) 5629499534213120 (by norm_num) (by norm_num))
  rw [h]
  norm_num

theorem fp64_1e9 : fp64 1000000000 = 1000000000 := by
  have h := fp64_eval 1000000000 29 8388608000000000 (by norm_num) (by norm_num) (by norm_num)
    (rhe_eq_low (1000000000 * 2 ^ ((52:ℤ) - 29)) 8388608000000000 (by norm_num) (by norm_num))
  rw [h]
  norm_num

theorem fp64_2e9 : fp64 2000000000 = 2000000000 := by
  have h := fp64_eval 2000000000 30 8388608000000000 (by norm_num) (by norm_num) (by norm_num)
    (rhe_eq_low (2000000000 * 2 ^ ((52:ℤ) - 30)) 8388608000000000 (by norm_num) (by norm_num))
  rw [h]
  norm_num

theorem fp64_3half : fp64 (3/2) = 3/2 := by
  have h := fp64_eval (3/2) 0 6755399441055744 (by norm_num) (by norm_num) (by norm_num)
    (rhe_eq_low ((3:ℚ)/2 * 2 ^ ((52:ℤ) - 0)) 6755399441055744 (by norm_num) (by norm_num))
  rw [h]
  norm_num

theorem fp64_5quarter : fp64 (5/4) = 5/4 := by
  have h := fp64_eval (5/4) 0 5629499534213120 (by norm_num) (by norm_num) (by norm_num)
    (rhe_eq_low ((5:ℚ)/4 * 2 ^ ((52:ℤ) - 0)) 5629499534213120 (by norm_num) (by norm_num))
  rw [h]
  norm_num

theorem fp64_m1 : fp64 ((1700000000123:ℚ)/1000) = 7130316800515899/4194304 := by
  have h := fp64_eval ((1700000000123:ℚ)/1000) 30 7130316800515899
    (by norm_num) (by norm_num) (by norm_num)
    (rhe_eq_low ((1700000000123:ℚ)/1000 * 2 ^ ((52:ℤ) - 30)) 7130316800515899
      (by norm_num) (by norm_num))
  rw [h]
  norm_num

theorem fp64_m1e9 : fp64 ((7130316800515899:ℚ)/4194304 * 1000000000) = 1700000000122999808 := by
  have h := fp64_eval ((7130316800515899:ℚ)/4194304 * 1000000000) 60 6640625000480468
    (by norm_num) (by norm_num) (by norm_num)
    (rhe_eq_low ((7130316800515899:ℚ)/4194304 * 1000000000 * 2 ^ ((52:ℤ) - 60)) 6640625000480468
      (by norm_num) (by norm_num))
  rw [h]
  norm_num

theorem fp64_m1k : fp64 ((7130316800515899:ℚ)/4194304 * 1000) = 1700000000123 := by
  have h := fp64_eval ((7130316800515899:ℚ)/4194304 * 1000) 40 6963200000503808
    (by norm_num) (by norm_num) (by norm_num)
    (rhe_eq_high ((7130316800515899:ℚ)/4194304 * 1000 * 2 ^ ((52:ℤ) - 40)) 6963200000503808
      (by norm_num) (by norm_num))
  rw [h]
  norm_num

theorem fp64_m2 : fp64 ((4194304003:ℚ)/1000) = 4503599630591721/1073741824 := by
  have h := fp64_eval ((4194304003:ℚ)/1000) 22 4503599630591721
    (by norm_num) (by norm_num) (by norm_num)
    (rhe_eq_low ((4194304003:ℚ)/1000 * 2 ^ ((52:ℤ) - 22)) 4503599630591721
      (by norm_num) (by norm_num))
  rw [h]
  norm_num

theorem fp64_m2e9 : fp64 ((4503599630591721:ℚ)/1073741824 * 1000000000) = 8388608005999999/2 := by
  have h := fp64_eval ((4503599630591721:ℚ)/1073741824 * 1000000000) 51 8388608005999999
    (by norm_num) (by norm_num) (by norm_num)
    (rhe_eq_low ((4503599630591721:ℚ)/1073741824 * 1000000000 * 2 ^ ((52:ℤ) - 51)) 8388608005999999
      (by norm_num) (by norm_num))
  rw [h]
  norm_num

theorem fp64_m2k : fp64 ((4503599630591721:ℚ)/1073741824 * 1000) = 8796093028499455/2097152 := by
  have h := fp64_eval ((4503599630591721:ℚ)/1073741824 * 1000) 31 8796093028499455
    (by norm_num) (by norm_num) (by norm_num)
    (rhe_eq_low ((4503599630591721:ℚ)/1073741824 * 1000 * 2 ^ ((52:ℤ) - 31)) 8796093028499455
      (by norm_num) (by norm_num))
  rw [h]
  norm_num

theorem rhe_m2ns : rhe ((8388608005999999:ℚ)/2) = 4194304003000000 := by
  have harg : ((8388608005999999:ℚ)/2) = ((4194304002999999:ℤ):ℚ) + 1/2 := by
    push_cast
    norm_num
  rw [harg, rhe_eq_half_odd 4194304002999999 (by decide)]
  norm_num

theorem rhe_m1us : rhe ((1700000000122999808:ℚ)/1000) = 1700000000123000 :=
  rhe_eq_high ((1700000000122999808:ℚ)/1000) 1700000000123000 (by norm_num) (by norm_num)

theorem rhe_m2us : rhe ((4194304003000000:ℚ)/1000) = 4194304003000 :=
  rhe_eq_low ((4194304003000000:ℚ)/1000) 4194304003000 (by norm_num) (by norm_num)

theorem pyTrunc_m2 : pyTrunc ((8796093028499455:ℚ)/2097152) = 4194304002 := by
  unfold pyTrunc
  rw [if_neg (by norm_num)]
  rw [Int.floor_eq_iff]
  constructor
  · push_cast
    norm_num
  · push_cast
    norm_num

theorem fp64_c2 : fp64 ((10000000000000001:ℚ)/10000000000000000) = 1 := by
  have h := fp64_eval ((10000000000000001:ℚ)/10000000000000000) 0 4503599627370496
    (by norm_num) (by norm_num) (by norm_num)
    (rhe_eq_low ((10000000000000001:ℚ)/10000000000000000 * 2 ^ ((52:ℤ) - 0)) 4503599627370496
      (by norm_num) (by norm_num))
  rw [h]
  norm_num

theorem fp64_53tenths : fp64 ((53:ℚ)/10) = 5967269506265907/1125899906842624 := by
  have h := fp64_eval ((53:ℚ)/10) 2 5967269506265907
    (by norm_num) (by norm_num) (by norm_num)
    (rhe_eq_low ((53:ℚ)/10 * 2 ^ ((52:ℤ) - 2)) 5967269506265907
      (by norm_num) (by norm_num))
  rw [h]
  norm_num

theorem roundDec_one_1 : roundDec 1 1 = 1 := by
  have h := roundDec_eval 1 1 0 1 (by norm_num) (by norm_num) (by norm_num)
    (rhe_eq_low ((1:ℚ) * 10 ^ ((1:ℤ) - 1 - 0)) 1 (by norm_num) (by norm_num))
  rw [h]
  norm_num

theorem shortestDec_one : shortestDec 1 = 1 := by
  rw [shortestDec_eval1 1 (by norm_num) (by rw [roundDec_one_1]; exact fp64_one),
    roundDec_one_1]

theorem roundDec_x53_1 : roundDec ((5967269506265907:ℚ)/1125899906842624) 1 = 5 := by
  have h := roundDec_eval ((5967269506265907:ℚ)/1125899906842624) 1 0 5
    (by norm_num) (by norm_num) (by norm_num)
    (rhe_eq_low ((5967269506265907:ℚ)/1125899906842624 * 10 ^ ((1:ℤ) - 1 - 0)) 5
      (by norm_num) (by norm_num))
  rw [h]
  norm_num

theorem roundDec_x53_2 : roundDec ((5967269506265907:ℚ)/1125899906842624) 2 = 53/10 := by
  have h := roundDec_eval ((5967269506265907:ℚ)/1125899906842624) 2 0 53
    (by norm_num) (by norm_num) (by norm_num)
    (rhe_eq_high ((5967269506265907:ℚ)/1125899906842624 * 10 ^ ((2:ℤ) - 1 - 0)) 53
      (by norm_num) (by norm_num))
  rw [h]
  norm_num

theorem shortestDec_x53 : shortestDec ((5967269506265907:ℚ)/1125899906842624) = 53/10 := by
  rw [shortestDec_eval2 ((5967269506265907:ℚ)/1125899906842624) (by norm_num)
      (by rw [roundDec_x53_1, fp64_five]; norm_num)
      (by rw [roundDec_x53_2, fp64_53tenths]),
    roundDec_x53_2]

/-! ### Composed datetime round-trip evaluations -/

theorem dtMicros_eval (m : ℤ) (t v : ℚ) (ns us : ℤ)
    (h1 : fp64 ((m:ℚ) / 1000) = t)
    (h2 : fp64 (t * 1000000000) = v)
    (h3 : rhe v = ns)
    (h4 : rhe ((ns:ℚ) / 1000) = us) :
    dtMicros m = us := by
  unfold dtMicros dtNs
  rw [h1, h2, h3, h4]

theorem storedTs_eval (us : ℤ) (t w : ℚ) (r : ℤ)
    (h1 : fp64 ((us:ℚ) / 1000000) = t)
    (h2 : fp64 (t * 1000) = w)
    (h3 : pyTrunc w = r) :
    storedTsOfMicros us = r := by
  unfold storedTsOfMicros tsFloat
  rw [h1, h2, h3]

theorem dtMicros_m1 : dtMicros 1700000000123 = 1700000000123000 := by
  refine dtMicros_eval 1700000000123 ((7130316800515899:ℚ)/4194304) 1700000000122999808
    1700000000122999808 1700000000123000 ?_ ?_ ?_ ?_
  · have harg : (((1700000000123:ℤ):ℚ)) / 1000 = (1700000000123:ℚ)/1000 := by push_cast; ring
    rw [harg, fp64_m1]
  · exact fp64_m1e9
  · exact rhe_int 1700000000122999808
  · have harg : (((1700000000122999808:ℤ):ℚ)) / 1000 = (1700000000122999808:ℚ)/1000 := by
      push_cast; ring
    rw [harg, rhe_m1us]

theorem storedTs_m1 : storedTsOfMicros 1700000000123000 = 1700000000123 := by
  refine storedTs_eval 1700000000123000 ((7130316800515899:ℚ)/4194304) 1700000000123
    1700000000123 ?_ ?_ ?_
  · have harg : (((1700000000123000:ℤ):ℚ)) / 1000000 = (1700000000123:ℚ)/1000 := by
      push_cast; norm_num
    rw [harg, fp64_m1]
  · exact fp64_m1k
  · exact pyTrunc_intCast 1700000000123 (by norm_num)

theorem dtMicros_m2 : dtMicros 4194304003 = 4194304003000 := by
  refine dtMicros_eval 4194304003 ((4503599630591721:ℚ)/1073741824) ((8388608005999999:ℚ)/2)
    4194304003000000 4194304003000 ?_ ?_ ?_ ?_
  · have harg : (((4194304003:ℤ):ℚ)) / 1000 = (4194304003:ℚ)/1000 := by push_cast; ring
    rw [harg, fp64_m2]
  · exact fp64_m2e9
  · exact rhe_m2ns
  · have harg : (((4194304003000000:ℤ):ℚ)) / 1000 = (4194304003000000:ℚ)/1000 := by
      push_cast; ring
    rw [harg, rhe_m2us]

theorem storedTs_m2 : storedTsOfMicros 4194304003000 = 4194304002 := by
  refine storedTs_eval 4194304003000 ((4503599630591721:ℚ)/1073741824)
    ((8796093028499455:ℚ)/2097152) 4194304002 ?_ ?_ ?_
  · have harg : (((4194304003000:ℤ):ℚ)) / 1000000 = (4194304003:ℚ)/1000 := by
      push_cast; norm_num
    rw [harg, fp64_m2]
  · exact fp64_m2k
  · exact pyTrunc_m2

theorem dtMicros_1000 : dtMicros 1000 = 1000000 := by
  refine dtMicros_eval 1000 1 1000000000 1000000000 1000000 ?_ ?_ ?_ ?_
  · have harg : (((1000:ℤ):ℚ)) / 1000 = 1 := by push_cast; norm_num
    rw [harg, fp64_one]
  · rw [one_mul, fp64_1e9]
  · exact rhe_int 1000000000
  · have harg : (((1000000000:ℤ):ℚ)) / 1000 = ((1000000:ℤ):ℚ) := by push_cast; norm_num
    rw [harg, rhe_int]

theorem dtMicros_2000 : dtMicros 2000 = 2000000 := by
  refine dtMicros_eval 2000 2 2000000000 2000000000 2000000 ?_ ?_ ?_ ?_
  · have harg : (((2000:ℤ):ℚ)) / 1000 = 2 := by push_cast; norm_num
    rw [harg, fp64_two]
  · have harg : (2:ℚ) * 1000000000 = 2000000000 := by norm_num
    rw [harg, fp64_2e9]
  · exact rhe_int 2000000000
  · have harg : (((2000000000:ℤ):ℚ)) / 1000 = ((2000000:ℤ):ℚ) := by push_cast; norm_num
    rw [harg, rhe_int]

/-! ## Parsing evaluations on concrete strings -/

theorem parseFloat_of_parts (s : String) (pt : Bool × ℕ × ℕ × ℕ)
    (h : parseDecParts s.data = some pt) :
    parseFloat s = some (FVal.fin (fp64 (ratOfParts pt))) := by
  unfold parseFloat
  rw [h]

theorem parseDec_of_parts (s : String) (pt : Bool × ℕ × ℕ × ℕ)
    (h : parseDecParts s.data = some pt) :
    parseDec s = some (ratOfParts pt) := by
  unfold parseDec
  rw [h]
  rfl

theorem parseFloat_of_dec (s : String) (q : ℚ) (h : parseDec s = some q) :
    parseFloat s = some (FVal.fin (fp64 q)) := by
  unfold parseDec at h
  rcases Option.map_eq_some'.mp h with ⟨pt, hpt, hq⟩
  rw [parseFloat_of_parts s pt hpt, hq]

theorem parseClose_noPct (s : String) (h : strContains s "%" = false) :
    parseClose s = parseFloat s := by
  unfold parseClose
  simp [h]

theorem parseDec_530 : parseDec "5.30" = some (53/10) := by
  have hp : parseDecParts "5.30".data = some (false, 5, 30, 2) := by decide
  rw [parseDec_of_parts "5.30" (false, 5, 30, 2) hp]
  unfold ratOfParts
  norm_num

theorem parseDec_tiny : parseDec "1.0000000000000001" =
    some (10000000000000001/10000000000000000) := by
  have hp : parseDecParts "1.0000000000000001".data = some (false, 1, 1, 16) := by decide
  rw [parseDec_of_parts "1.0000000000000001" (false, 1, 1, 16) hp]
  unfold ratOfParts
  norm_num

theorem parseClose_zero : parseClose "0" = some (FVal.fin 0) := by
  rw [parseClose_noPct "0" (by decide)]
  have hp : parseDecParts "0".data = some (false, 0, 0, 0) := by decide
  rw [parseFloat_of_parts "0" (false, 0, 0, 0) hp]
  have : ratOfParts (false, 0, 0, 0) = 0 := by
    unfold ratOfParts
    norm_num
  rw [this, fp64_zero]

theorem parseClose_unch : parseClose "UNCH" = none := by decide

theorem parseClose_15 : parseClose "1.5" = some (FVal.fin (3/2)) := by
  rw [parseClose_noPct "1.5" (by decide)]
  have hp : parseDecParts "1.5".data = some (false, 1, 5, 1) := by decide
  rw [parseFloat_of_parts "1.5" (false, 1, 5, 1) hp]
  have : ratOfParts (false, 1, 5, 1) = 3/2 := by
    unfold ratOfParts
    norm_num
  rw [this, fp64_3half]

theorem parseClose_125 : parseClose "1.25" = some (FVal.fin (5/4)) := by
  rw [parseClose_noPct "1.25" (by decide)]
  have hp : parseDecParts "1.25".data = some (false, 1, 25, 2) := by decide
  rw [parseFloat_of_parts "1.25" (false, 1, 25, 2) hp]
  have : ratOfParts (false, 1, 25, 2) = 5/4 := by
    unfold ratOfParts
    norm_num
  rw [this, fp64_5quarter]

/-! ## Helper lemmas for the claims -/

/-- The CNBC.py writer loop completes only when every row is NaN (all
skipped), and then it has written nothing; any other row crashes it. -/
theorem chartWriteLoop_eq (rows : List CRow) (st : Store) :
    chartWriteLoop rows st =
      if rows.all (fun r => decide (r.value = FVal.nan)) then some st else none := by
  induction rows with
  | nil => simp [chartWriteLoop]
  | cons r rest ih =>
    cases hv : r.value with
    | fin q => simp [chartWriteLoop, hv]
    | nan => simp [chartWriteLoop, hv, ih]
    | inf => simp [chartWriteLoop, hv]
    | ninf => simp [chartWriteLoop, hv]

/-- A CNBC.py writer run that completes has not changed the store. -/
theorem chartWriteLoop_completes (rows : List CRow) (st st2 : Store)
    (h : chartWriteLoop rows st = some st2) : st2 = st := by
  rw [chartWriteLoop_eq] at h
  by_cases hall : rows.all (fun r => decide (r.value = FVal.nan)) = true
  · rw [if_pos hall] at h
    exact (Option.some.inj h).symm
  · rw [if_neg hall] at h
    simp at h

/-- Any non-NaN row makes the CNBC.py writer die on the uncaught
`AttributeError` before any put. -/
theorem chartWriteLoop_crash (rows : List CRow) (st : Store) (r : CRow)
    (hmem : r ∈ rows) (hne : r.value ≠ FVal.nan) : chartWriteLoop rows st = none := by
  rw [chartWriteLoop_eq]
  have hall : ¬ (rows.all (fun r => decide (r.value = FVal.nan)) = true) := by
    intro hall
    exact hne (of_decide_eq_true (List.all_eq_true.mp hall r hmem))
  rw [if_neg hall]

/-- A `floatItem` put names the metric it was built for. -/
theorem floatItem_mid (mid : String) (u : Option String) (ts : ℤ) (sd : String)
    (v : Option FVal) (p : Key × Item) (h : floatItem mid u ts sd v = some p) :
    p.1.1 = mid := by
  cases v with
  | none => simp [floatItem] at h
  | some v =>
    cases v with
    | fin q =>
      unfold floatItem at h
      simp only [Option.some.injEq] at h
      rw [← h]
    | nan => simp [floatItem] at h
    | inf =>
      unfold floatItem at h
      simp only [Option.some.injEq] at h
      rw [← h]
    | ninf =>
      unfold floatItem at h
      simp only [Option.some.injEq] at h
      rw [← h]

/-- A `rawItem` put names the metric it was built for. -/
theorem rawItem_mid (mid : String) (u : Option String) (ts : ℤ) (sd : String)
    (v : Option String) (p : Key × Item) (h : rawItem mid u ts sd v = some p) :
    p.1.1 = mid := by
  cases v with
  | none => simp [rawItem] at h
  | some s =>
    simp only [rawItem, Option.map_eq_some'] at h
    rcases h with ⟨dv, _, hp⟩
    rw [← hp]

/-- Normalization of the single-candidate fixture day: the absent
overnight field defaults to the sentinel `"N/A"` and is suppressed, and
the 1M term price flows through `float`. -/
theorem dayToRow_day1M (s : String) (q : ℚ) (h : parseDec s = some q) :
    dayToRow (day1M s) =
      { date := some "2024-01-02"
      , overnight := none
      , m1 := some (FVal.fin (fp64 q))
      , m3 := none
      , m6 := none
      , y1 := none
      , avg30 := none
      , avg90 := none
      , avg180 := none
      , sofrIndex := none } := by
  have hov : pyLower "N/A" ∈ sentinelList := by decide
  have hc1 : termCands "1M" [(⟨some "1M", some s, some "2024-01-02T10:00:00Z"⟩ : RateInfo)] =
      [⟨some "1M", some s, some "2024-01-02T10:00:00Z"⟩] := by
    simp [termCands]
  have hc3 : termCands "3M" [(⟨some "1M", some s, some "2024-01-02T10:00:00Z"⟩ : RateInfo)] =
      [] := by
    simp [termCands]
  have hc6 : termCands "6M" [(⟨some "1M", some s, some "2024-01-02T10:00:00Z"⟩ : RateInfo)] =
      [] := by
    simp [termCands]
  have hcy : termCands "1Y" [(⟨some "1M", some s, some "2024-01-02T10:00:00Z"⟩ : RateInfo)] =
      [] := by
    simp [termCands]
  have hm1 : termVal "2024-01-02" "1M"
      [(⟨some "1M", some s, some "2024-01-02T10:00:00Z"⟩ : RateInfo)] =
      some (FVal.fin (fp64 q)) := by
    unfold termVal
    rw [hc1]
    exact parseFloat_of_dec s q h
  have hm3 : termVal "2024-01-02" "3M"
      [(⟨some "1M", some s, some "2024-01-02T10:00:00Z"⟩ : RateInfo)] = none := by
    unfold termVal
    rw [hc3]
    rfl
  have hm6 : termVal "2024-01-02" "6M"
      [(⟨some "1M", some s, some "2024-01-02T10:00:00Z"⟩ : RateInfo)] = none := by
    unfold termVal
    rw [hc6]
    rfl
  have hy1 : termVal "2024-01-02" "1Y"
      [(⟨some "1M", some s, some "2024-01-02T10:00:00Z"⟩ : RateInfo)] = none := by
    unfold termVal
    rw [hcy]
    rfl
  unfold dayToRow
  simp only [day1M, Option.getD_some, Option.getD_none]
  rw [if_pos hov, hm1, hm3, hm6, hy1]

/-- The puts of the fixture day: exactly one item, for the 1M term metric,
holding `Decimal(str(float(s)))`. -/
theorem rowItems_day1M (s : String) (q : ℚ) (ts : ℤ) (pd : String → Option ℤ)
    (fmt : String → String) (h : parseDec s = some q) (hpd : pd "2024-01-02" = some ts) :
    rowItems pd fmt (dayToRow (day1M s)) =
      [(("SOFR_1M_Term", ts),
        ⟨DecV.num (shortestDec (fp64 q)), fmt "2024-01-02", some "%"⟩)] := by
  rw [dayToRow_day1M s q h]
  unfold rowItems
  simp only []
  rw [hpd]
  simp [rowItemsTs, floatItem, rawItem, List.reduceOption]

/-- No put of a row whose overnight column is absent targets the
`SOFR_Overnight` metric. -/
theorem rowItems_no_overnight (pd : String → Option ℤ) (fmt : String → String) (r : SRow)
    (hov : r.overnight = none) :
    ∀ p ∈ rowItems pd fmt r, p.1.1 ≠ "SOFR_Overnight" := by
  intro p hp
  unfold rowItems at hp
  cases hd : r.date with
  | none =>
    rw [hd] at hp
    simp at hp
  | some d =>
    rw [hd] at hp
    have hp1 : p ∈ (match pd d with
        | none => ([] : List (Key × Item))
        | some ts => rowItemsTs fmt r d ts) := hp
    cases hpd : pd d with
    | none =>
      rw [hpd] at hp1
      simp at hp1
    | some ts =>
      rw [hpd] at hp1
      have hp : p ∈ rowItemsTs fmt r d ts := hp1
      unfold rowItemsTs at hp
      rw [List.reduceOption_mem_iff] at hp
      simp only [List.mem_cons, List.not_mem_nil, or_false] at hp
      rcases hp with h | h | h | h | h | h | h | h | h
      · rw [hov] at h
        simp [floatItem] at h
      · rw [floatItem_mid "SOFR_1M_Term" (some "%") ts (fmt d) r.m1 p h.symm]
        decide
      · rw [floatItem_mid "SOFR_3M_Term" (some "%") ts (fmt d) r.m3 p h.symm]
        decide
      · rw [floatItem_mid "SOFR_6M_Term" (some "%") ts (fmt d) r.m6 p h.symm]
        decide
      · rw [floatItem_mid "SOFR_1Y_Term" (some "%") ts (fmt d) r.y1 p h.symm]
        decide
      · rw [rawItem_mid "SOFR_30D_Avg" (some "%") ts (fmt d) r.avg30 p h.symm]
        decide
      · rw [rawItem_mid "SOFR_90D_Avg" (some "%") ts (fmt d) r.avg90 p h.symm]
        decide
      · rw [rawItem_mid "SOFR_180D_Avg" (some "%") ts (fmt d) r.avg180 p h.symm]
        decide
      · rw [rawItem_mid "SOFR_Index" none ts (fmt d) r.sofrIndex p h.symm]
        decide

/-- One decoded response ends the retry loop at once. -/
theorem fetchLoop_payload (outs : ℕ → FetchOutcome) (fuel i : ℕ) (p : Option (List Bar))
    (h : outs i = FetchOutcome.payload p) :
    fetchLoop outs (fuel+1) i = ⟨processPayload p, i+1, i⟩ := by
  have e : fetchLoop outs (fuel+1) i =
      (match outs i with
       | FetchOutcome.payload p => ⟨processPayload p, i + 1, i⟩
       | _ => if fuel = 0 then ⟨[], i + 1, i⟩ else fetchLoop outs fuel (i + 1)) := rfl
  rw [e, h]

/-- A caught failure with budget remaining sleeps and retries. -/
theorem fetchLoop_fail_step (outs : ℕ → FetchOutcome) (fuel i : ℕ)
    (h : isFailure (outs i) = true) (hf : fuel ≠ 0) :
    fetchLoop outs (fuel+1) i = fetchLoop outs fuel (i+1) := by
  have e : fetchLoop outs (fuel+1) i =
      (match outs i with
       | FetchOutcome.payload p => ⟨processPayload p, i + 1, i⟩
       | _ => if fuel = 0 then ⟨[], i + 1, i⟩ else fetchLoop outs fuel (i + 1)) := rfl
  rw [e]
  cases ho : outs i with
  | payload p =>
    rw [ho] at h
    simp [isFailure] at h
  | transportErr => simp [hf]
  | httpErr => simp [hf]
  | jsonErr => simp [hf]
  | otherErr => simp [hf]

/-- A caught failure on the final attempt returns the empty frame. -/
theorem fetchLoop_fail_last (outs : ℕ → FetchOutcome) (i : ℕ)
    (h : isFailure (outs i) = true) :
    fetchLoop outs 1 i = ⟨[], i+1, i⟩ := by
  have e : fetchLoop outs 1 i =
      (match outs i with
       | FetchOutcome.payload p => ⟨processPayload p, i + 1, i⟩
       | _ => if (0:ℕ) = 0 then ⟨[], i + 1, i⟩ else fetchLoop outs 0 (i + 1)) := rfl
  rw [e]
  cases ho : outs i with
  | payload p =>
    rw [ho] at h
    simp [isFailure] at h
  | transportErr => simp
  | httpErr => simp
  | jsonErr => simp
  | otherErr => simp

/-- Three caught failures exhaust the CNBC.py retry budget: empty result,
3 attempts, 2 inter-attempt sleeps. -/
theorem cnbcFetch_exhaust (outs : ℕ → FetchOutcome)
    (h : ∀ i, i < 3 → isFailure (outs i) = true) :
    cnbcFetch outs = ⟨[], 3, 2⟩ := by
  have e1 : fetchLoop outs 3 0 = fetchLoop outs 2 1 :=
    fetchLoop_fail_step outs 2 0 (h 0 (by omega)) (by omega)
  have e2 : fetchLoop outs 2 1 = fetchLoop outs 1 2 :=
    fetchLoop_fail_step outs 1 1 (h 1 (by omega)) (by omega)
  have e3 : fetchLoop outs 1 2 = ⟨[], 3, 2⟩ :=
    fetchLoop_fail_last outs 2 (h 2 (by omega))
  unfold cnbcFetch
  rw [e1, e2, e3]

/-- A structural mismatch on the first attempt is not retried. -/
theorem cnbcFetch_mismatch (outs : ℕ → FetchOutcome)
    (h : outs 0 = FetchOutcome.payload none) :
    cnbcFetch outs = ⟨[], 1, 0⟩ := by
  unfold cnbcFetch
  rw [fetchLoop_payload outs 2 0 none h]
  rfl

/-! ## Claims -/

/-- C1 (amended): a chart point is emitted only when the close text
coerces through `float`; but an absent `close` field defaults to the text
`"0"` and yields a point with value 0 rather than being suppressed;
non-numeric close values do suppress the point.  The CNBC.py store writer
in fact never writes any point: a run of it that completes (every row
NaN-skipped) leaves the store untouched, and any non-NaN row kills it
with the uncaught `AttributeError` from the nonexistent
`pd.Series.is_finite` before the first put — so in particular no
null/NaN value is ever written by it. -/
theorem c1_close_value_gate :
    (∀ (b : Bar) (m : ℤ), b.trade = some m → b.close = none →
      normBar b = some ⟨dtMicros m, FVal.fin 0⟩) ∧
    (∀ (b : Bar) (m : ℤ) (s : String), b.trade = some m → b.close = some s →
      parseClose s = none → normBar b = none) ∧
    (∀ (rows : List CRow) (st st2 : Store), chartWriteLoop rows st = some st2 →
      st2 = st) ∧
    (∀ (rows : List CRow) (st : Store) (r : CRow), r ∈ rows → r.value ≠ FVal.nan →
      chartWriteLoop rows st = none) := by
  refine ⟨?_, ?_, chartWriteLoop_completes, chartWriteLoop_crash⟩
  · intro b m ht hc
    rcases b with ⟨bt, bc⟩
    have hbt : bt = some m := ht
    have hbc : bc = none := hc
    subst hbt
    subst hbc
    show (parseClose "0").map (fun v => (⟨dtMicros m, v⟩ : CRow)) =
      some ⟨dtMicros m, FVal.fin 0⟩
    rw [parseClose_zero]
    rfl
  · intro b m s ht hc hp
    rcases b with ⟨bt, bc⟩
    have hbt : bt = some m := ht
    have hbc : bc = some s := hc
    subst hbt
    subst hbc
    show (parseClose s).map (fun v => (⟨dtMicros m, v⟩ : CRow)) = none
    rw [hp]
    rfl

/-- Witness for C1: concrete applications — a bar with no close field
emits a zero-valued point at its timestamp; `close = "UNCH"` suppresses
the bar; a writer run over one NaN row completes without touching the
store; a writer run over one finite-valued row dies with nothing
written. -/
theorem c1_close_value_gate_witness :
    normBar ⟨some 1000, none⟩ = some ⟨dtMicros 1000, FVal.fin 0⟩ ∧
    normBar ⟨some 1000, some "UNCH"⟩ = none ∧
    ((fun _ => none : Store) = (fun _ => (none : Option Item))) ∧
    chartWriteLoop [⟨1000000, FVal.fin (3/2)⟩] (fun _ => none) = none := by
  refine ⟨?_, ?_, ?_, ?_⟩
  · exact c1_close_value_gate.1 ⟨some 1000, none⟩ 1000 rfl rfl
  · exact c1_close_value_gate.2.1 ⟨some 1000, some "UNCH"⟩ 1000 "UNCH" rfl rfl parseClose_unch
  · exact c1_close_value_gate.2.2.1 [⟨0, FVal.nan⟩] (fun _ => none) (fun _ => none) rfl
  · exact c1_close_value_gate.2.2.2 [⟨1000000, FVal.fin (3/2)⟩] (fun _ => none)
      ⟨1000000, FVal.fin (3/2)⟩ (by simp) (by simp)

/-- C1 counterexample: a chart bar whose `close` field is absent does
not suppress emission — the normalizer emits a point with value 0 for
it (`bar.get("close", "0")`). -/
theorem c1_missing_close_cex :
    cnbcRows [⟨some 1000, none⟩] = [⟨1000000, FVal.fin 0⟩] ∧
    cnbcRows [⟨some 1000, none⟩] ≠ [] := by
  have h1 : normBar ⟨some 1000, none⟩ = some ⟨1000000, FVal.fin 0⟩ := by
    show (parseClose "0").map (fun v => (⟨dtMicros 1000, v⟩ : CRow)) =
      some ⟨1000000, FVal.fin 0⟩
    rw [parseClose_zero]
    simp [dtMicros_1000]
  have hrows : cnbcRows [⟨some 1000, none⟩] = [⟨1000000, FVal.fin 0⟩] := by
    unfold cnbcRows sortByDt
    simp [List.filterMap_cons, h1, List.mergeSort]
  exact ⟨hrows, by rw [hrows]; simp⟩

/-- C2 (amended): the stored value is the decimal denoted by
`str(float(s))` — the shortest repr of the binary64 rounding of the
input string — not the exact decimal value of the string itself; for
inputs within binary64 precision, such as "5.30", the two coincide. -/
theorem c2_stored_value_shortest_repr :
    (∀ (s : String) (q : ℚ) (ts : ℤ) (pd : String → Option ℤ) (fmt : String → String),
      parseDec s = some q → pd "2024-01-02" = some ts →
      rowItems pd fmt (dayToRow (day1M s)) =
        [(("SOFR_1M_Term", ts),
          ⟨DecV.num (shortestDec (fp64 q)), fmt "2024-01-02", some "%"⟩)]) ∧
    rowItems (fun _ => some 0) (fun d => d) (dayToRow (day1M "5.30")) =
      [(("SOFR_1M_Term", 0), ⟨DecV.num (53/10), "2024-01-02", some "%"⟩)] := by
  refine ⟨fun s q ts pd fmt h hpd => rowItems_day1M s q ts pd fmt h hpd, ?_⟩
  rw [rowItems_day1M "5.30" (53/10) 0 (fun _ => some 0) (fun d => d) parseDec_530 rfl]
  rw [fp64_53tenths, shortestDec_x53]

/-- Witness for C2: the general stored-value equation applied at the
concrete input "5.30". -/
theorem c2_stored_value_shortest_repr_witness :
    rowItems (fun _ => some 0) (fun d => d) (dayToRow (day1M "5.30")) =
      [(("SOFR_1M_Term", 0),
        ⟨DecV.num (shortestDec (fp64 (53/10))), "2024-01-02", some "%"⟩)] :=
  c2_stored_value_shortest_repr.1 "5.30" (53/10) 0 (fun _ => some 0) (fun d => d)
    parseDec_530 rfl

/-- C2 counterexample: the valid decimal string "1.0000000000000001"
stores as exactly 1 — the binary64 normalization step loses the exact
decimal value. -/
theorem c2_precision_loss_cex :
    parseDec "1.0000000000000001" = some (10000000000000001/10000000000000000) ∧
    rowItems (fun _ => some 0) (fun d => d) (dayToRow (day1M "1.0000000000000001")) =
      [(("SOFR_1M_Term", 0), ⟨DecV.num 1, "2024-01-02", some "%"⟩)] ∧
    (1 : ℚ) ≠ 10000000000000001/10000000000000000 := by
  refine ⟨parseDec_tiny, ?_, by norm_num⟩
  rw [rowItems_day1M "1.0000000000000001" (10000000000000001/10000000000000000) 0
    (fun _ => some 0) (fun d => d) parseDec_tiny rfl]
  rw [fp64_c2, shortestDec_one]

/-- C3: for any day label and candidate list, the normalizer selects the
first same-day candidate containing "T10:00", else the first same-day
candidate, else the first candidate in original order; in particular,
for term 1M on 2024-01-02 with a 14:00 and a 10:00 candidate, the 10:00
fixing is selected. -/
theorem c3_term_tiebreak :
    (∀ (dateStr : String) (l : List RateInfo),
      selectRate dateStr l =
        (((l.filter (fun r => pyStartsWith (r.timestamp.getD "") dateStr)).find?
            (fun r => strContains (r.timestamp.getD "") "T10:00")).orElse
          (fun _ =>
            (l.filter (fun r => pyStartsWith (r.timestamp.getD "") dateStr)).head?)).orElse
          (fun _ => l.head?)) ∧
    selectRate "2024-01-02"
      [⟨some "1M", some "5.32", some "2024-01-02T14:00:00Z"⟩,
       ⟨some "1M", some "5.31", some "2024-01-02T10:00:00Z"⟩] =
      some ⟨some "1M", some "5.31", some "2024-01-02T10:00:00Z"⟩ := by
  refine ⟨selectRate_spec, ?_⟩
  decide

/-- C4 (amended): CMESOFR.py catches a store-init failure, still attempts
the fetch, and always exits 0; the history script exits non-zero exactly
when store init fails, attempting no fetch in that case; CNBC.py exits
non-zero when store init fails (no fetch attempted), but also whenever
its fetch produced any non-NaN value — the writer's guard calls the
nonexistent `pd.Series.is_finite` and the resulting `AttributeError` is
uncaught — so it exits 0 only when the fetch yielded nothing or only NaN
values. -/
theorem c4_exit_and_fetch_behavior :
    (∀ (ok : Bool) (fetched : List SRow) (pd : String → Option ℤ) (fmt : String → String)
      (st : Store), (cmesofrMain ok fetched pd fmt st).1.exitCode = 0 ∧
        (cmesofrMain ok fetched pd fmt st).1.fetchAttempted = true) ∧
    (∀ (ok : Bool) (outs : ℕ → FetchOutcome) (st : Store),
      (cnbcMain ok outs st).1.exitCode =
        (if ok then
          (if (cnbcFetch outs).rows.all (fun r => decide (r.value = FVal.nan)) then 0
           else 1)
         else 1) ∧
      (cnbcMain ok outs st).1.fetchAttempted = ok) ∧
    (∀ (ok : Bool) (off tsf : ℤ → ℤ) (out : FetchOutcome) (mid u : String)
      (fmt : ℤ → String) (st : Store),
      (historyMain ok off tsf out mid u fmt st).1.exitCode = (if ok then 0 else 1) ∧
      (historyMain ok off tsf out mid u fmt st).1.fetchAttempted = ok) := by
  refine ⟨?_, ?_, ?_⟩
  · intro ok fetched pd fmt st
    exact ⟨rfl, rfl⟩
  · intro ok outs st
    cases ok
    · constructor
      · simp [cnbcMain]
      · simp [cnbcMain]
    · unfold cnbcMain
      by_cases he : (cnbcFetch outs).rows.isEmpty
      · have hnil : (cnbcFetch outs).rows = [] := List.isEmpty_iff.mp he
        rw [hnil]
        simp [chartWriteLoop]
      · rw [chartWriteLoop_eq]
        by_cases hall : (cnbcFetch outs).rows.all (fun r => decide (r.value = FVal.nan))
        · simp [he, hall]
        · simp [he, hall]
  · intro ok off tsf out mid u fmt st
    cases ok
    · simp [historyMain]
    · rcases hf : historyFetch off out with ⟨o, n⟩
      cases o <;> simp [historyMain, hf]

/-- C4 counterexample: in CMESOFR.py a store-init failure is not fatal —
the fetch is still attempted and the process exits 0, contradicting
"no fetch is attempted" and the startup-fatality of `StoreUnavailable`
for that pipeline. -/
theorem c4_cmesofr_fetches_after_store_failure_cex :
    (cmesofrMain false [] (fun _ => none) (fun d => d) (fun _ => none)).1.fetchAttempted =
      true ∧
    (cmesofrMain false [] (fun _ => none) (fun d => d) (fun _ => none)).1.exitCode = 0 :=
  ⟨rfl, rfl⟩

/-- C5 (amended): CNBC.py hands its store writer a sequence sorted
ascending by timestamp; the history script hands over the normalized bars
in original source order, without sorting. -/
theorem c5_sort_behavior :
    (∀ bars : List Bar, (cnbcRows bars).Pairwise (fun a b => a.dtMicros ≤ b.dtMicros)) ∧
    (∀ (off : ℤ → ℤ) (bars : List Bar),
      historyRows off bars = bars.filterMap (historyNormBar off)) :=
  ⟨cnbcRows_sortedAsc, fun _ _ => rfl⟩

/-- C5 counterexample: a history payload with bars in descending time
order reaches the store writer unsorted (system timezone UTC, offset 0). -/
theorem c5_history_no_sort_cex :
    historyRows (fun _ => 0) [⟨some 2000, some "1.5"⟩, ⟨some 1000, some "1.25"⟩] =
      [⟨2000000, FVal.fin (3/2)⟩, ⟨1000000, FVal.fin (5/4)⟩] ∧
    ¬ (historyRows (fun _ => 0) [⟨some 2000, some "1.5"⟩,
        ⟨some 1000, some "1.25"⟩]).Pairwise (fun a b => a.dtMicros ≤ b.dtMicros) := by
  have h1 : historyNormBar (fun _ => 0) ⟨some 2000, some "1.5"⟩ =
      some ⟨2000000, FVal.fin (3/2)⟩ := by
    show (parseClose "1.5").map (fun v => (⟨dtMicros 2000 + 0, v⟩ : CRow)) = _
    rw [parseClose_15]
    simp [dtMicros_2000]
  have h2 : historyNormBar (fun _ => 0) ⟨some 1000, some "1.25"⟩ =
      some ⟨1000000, FVal.fin (5/4)⟩ := by
    show (parseClose "1.25").map (fun v => (⟨dtMicros 1000 + 0, v⟩ : CRow)) = _
    rw [parseClose_125]
    simp [dtMicros_1000]
  have hrows : historyRows (fun _ => 0) [⟨some 2000, some "1.5"⟩, ⟨some 1000, some "1.25"⟩] =
      [⟨2000000, FVal.fin (3/2)⟩, ⟨1000000, FVal.fin (5/4)⟩] := by
    unfold historyRows
    simp [List.filterMap_cons, h1, h2]
  refine ⟨hrows, ?_⟩
  rw [hrows]
  intro hp
  have hle := (List.pairwise_cons.mp hp).1 ⟨1000000, FVal.fin (5/4)⟩ (by simp)
  norm_num at hle

/-- C6 (amended): CNBC.py retries up to 3 attempts with an inter-attempt
sleep, returning an empty frame after exhaustion, and does not retry a
structural mismatch; the history-script fetcher makes exactly one attempt
and returns an absent result on any caught failure. -/
theorem c6_retry_policy :
    (∀ outs : ℕ → FetchOutcome, (∀ i, i < 3 → isFailure (outs i) = true) →
      cnbcFetch outs = ⟨[], 3, 2⟩) ∧
    (∀ outs : ℕ → FetchOutcome, outs 0 = FetchOutcome.payload none →
      cnbcFetch outs = ⟨[], 1, 0⟩) ∧
    (∀ (off : ℤ → ℤ) (out : FetchOutcome), (historyFetch off out).2 = 1) ∧
    (∀ (off : ℤ → ℤ) (out : FetchOutcome), isFailure out = true →
      (historyFetch off out).1 = none) := by
  refine ⟨cnbcFetch_exhaust, cnbcFetch_mismatch, fun off out => rfl, ?_⟩
  intro off out h
  cases out with
  | payload p => simp [isFailure] at h
  | transportErr => rfl
  | httpErr => rfl
  | jsonErr => rfl
  | otherErr => rfl

/-- Witness for C6: transport failure on every attempt exhausts the
3-attempt budget with 2 sleeps; a structural mismatch ends after one
attempt; the history fetcher makes a single attempt and yields nothing. -/
theorem c6_retry_policy_witness :
    cnbcFetch (fun _ => FetchOutcome.transportErr) = ⟨[], 3, 2⟩ ∧
    cnbcFetch (fun _ => FetchOutcome.payload none) = ⟨[], 1, 0⟩ ∧
    (historyFetch (fun _ => 0) FetchOutcome.transportErr).2 = 1 ∧
    (historyFetch (fun _ => 0) FetchOutcome.transportErr).1 = none :=
  ⟨c6_retry_policy.1 (fun _ => FetchOutcome.transportErr) (fun _ _ => rfl),
   c6_retry_policy.2.1 (fun _ => FetchOutcome.payload none) rfl,
   c6_retry_policy.2.2.1 (fun _ => 0) FetchOutcome.transportErr,
   c6_retry_policy.2.2.2 (fun _ => 0) FetchOutcome.transportErr rfl⟩

/-- C6 counterexample: the history-script direct-HTTPS fetcher makes one
attempt on a transport error, not three. -/
theorem c6_history_single_attempt_cex :
    (historyFetch (fun _ => 0) FetchOutcome.transportErr).2 = 1 ∧ (1 : ℕ) ≠ 3 :=
  ⟨rfl, by decide⟩

/-- C7: a sentinel overnight value (any case of "-", "n/a", "none", "")
normalizes to absent, and no put of that day's row targets the
`SOFR_Overnight` metric. -/
theorem c7_sentinel_overnight_suppressed :
    ∀ (d : DayData) (pd : String → Option ℤ) (fmt : String → String),
      pyLower (d.overnight.getD "N/A") ∈ sentinelList →
      (dayToRow d).overnight = none ∧
      ∀ p ∈ rowItems pd fmt (dayToRow d), p.1.1 ≠ "SOFR_Overnight" := by
  intro d pd fmt hs
  have hnone : (dayToRow d).overnight = none := if_pos hs
  exact ⟨hnone, rowItems_no_overnight pd fmt (dayToRow d) hnone⟩

/-- Witness for C7: a concrete day record with overnight "N/A" yields no
overnight column and no `SOFR_Overnight` put. -/
theorem c7_sentinel_overnight_suppressed_witness :
    (dayToRow ⟨some "2024-01-02", some "N/A", none, none, none, none, none⟩).overnight =
      none ∧
    ∀ p ∈ rowItems (fun _ => some 0) (fun d => d)
        (dayToRow ⟨some "2024-01-02", some "N/A", none, none, none, none, none⟩),
      p.1.1 ≠ "SOFR_Overnight" :=
  c7_sentinel_overnight_suppressed
    ⟨some "2024-01-02", some "N/A", none, none, none, none, none⟩
    (fun _ => some 0) (fun d => d) (by decide)

/-- C8: only the first 5 day records of a strip payload are normalized;
a payload of 8 records yields exactly 5 rows. -/
theorem c8_first_five_days :
    (∀ strips : List DayData, sofrRows strips = (strips.take 5).map dayToRow) ∧
    (sofrRows (List.replicate 8 ⟨none, none, none, none, none, none, none⟩)).length = 5 := by
  refine ⟨sofrRows_eq_take, ?_⟩
  rw [sofrRows_eq_take]
  simp

/-- C9 (code-bug evidence): the intended write contract — one
unconditional put per point under the composite key, hence idempotent
reruns — is implemented by the CMESOFR writer and by the history-script
writer, and both are proved idempotent here; but the CNBC.py writer named
by the claim cannot execute it: on a row with any non-NaN value (here
1.5) its guard evaluates `pd.Series(value).is_finite()`, an attribute
pandas does not have, and the uncaught `AttributeError` kills the writer
before its first put. -/
theorem c9_writer_behavior :
    chartWriteLoop [⟨1000000, FVal.fin (3/2)⟩] (fun _ => none) = none ∧
    (∀ (pd : String → Option ℤ) (fmt : String → String) (rows : List SRow) (st : Store),
      writeSofr pd fmt rows (writeSofr pd fmt rows st) = writeSofr pd fmt rows st) ∧
    (∀ (tsf : ℤ → ℤ) (mid u : String) (fmt : ℤ → String) (rows : List CRow) (st : Store),
      writeHist tsf mid u fmt rows (writeHist tsf mid u fmt rows st) =
        writeHist tsf mid u fmt rows st) :=
  ⟨rfl,
   fun pd fmt rows st => applyPuts_idem (sofrItems pd fmt rows) st,
   fun _ _ _ _ _ st => applyPuts_idem _ st⟩

/-- C10 (amended): the millisecond→datetime→millisecond conversion of the
UTC chart pipeline is exact for typical contemporary timestamps such as
1700000000123, but not for every representable epoch-millisecond input:
4194304003 is stored as 4194304002. -/
theorem c10_ms_roundtrip :
    storedTsOfMicros (dtMicros 1700000000123) = 1700000000123 ∧
    storedTsOfMicros (dtMicros 4194304003) = 4194304002 := by
  constructor
  · rw [dtMicros_m1]
    exact storedTs_m1
  · rw [dtMicros_m2]
    exact storedTs_m2

/-- C10 counterexample: the timestamp 4194304003 ms does not round-trip
through the float-seconds datetime conversion — the stored key is one
millisecond early. -/
theorem c10_ms_roundtrip_cex :
    storedTsOfMicros (dtMicros 4194304003) ≠ 4194304003 := by
  rw [dtMicros_m2, storedTs_m2]
  decide

end CnbcSofr
